import Mathlib

/-!
Verification of the sediment-report extraction and classification pipeline.

The Python sources are shallowly embedded: decimal floating-point values
become exact rationals (`ℚ`, built with `mkRat` so concrete instances
evaluate), Python strings become `String`/`List Char`, dictionaries whose
key sets differ between branches become structures with `Option` fields,
and fallible operations return `Option`.  Regular-expression matchers that
are configuration data (the pattern library) are abstracted as functions
`String → Option String`; the fixed patterns that the extractors hard-code
(station/replica codes, decimal tokens, date shapes) are embedded as
executable character-list scanners.
-/


/-! ## Regulatory thresholds and the compliance classifier
    (src/extractors/sedimento_extractor.py, `SedimentoExtractor`) -/

/-- Per-monitoring-type regulatory thresholds (`UMBRALES` values). -/
structure Umbrales where
  mot : ℚ
  ph : ℚ
  eh : ℚ
  deriving DecidableEq, Repr

/-- Threshold table `SedimentoExtractor.UMBRALES` (Res. Exenta 3612/09). -/
def UMBRALES : List (String × Umbrales) :=
  [("INFA", ⟨9, mkRat 71 10, 50⟩),
   ("INFA-POSTANAEROBICA", ⟨8, mkRat 71 10, 75⟩),
   ("CPS", ⟨9, mkRat 71 10, 50⟩)]

/-- `self.UMBRALES.get(tipo_monitoreo, self.UMBRALES['INFA'])`. -/
def umbralesPara (tipoMonitoreo : String) : Umbrales :=
  (UMBRALES.lookup tipoMonitoreo).getD ⟨9, mkRat 71 10, 50⟩

/-- A consolidated station (`_consolidar_estaciones` result entries). -/
structure Estacion where
  codigo : String
  utm_este : Option Int
  utm_norte : Option Int
  profundidad_m : Option ℚ
  deriving DecidableEq, Repr

/-- A per-station organic-matter average (`_calcular_promedios_mot` entries). -/
structure PromedioMot where
  codigo_estacion : String
  mot_promedio : ℚ
  num_replicas : Nat
  deriving DecidableEq, Repr

/-- A per-station pH/Eh average (`_calcular_promedios_ph_redox` entries). -/
structure PromedioPhRedox where
  codigo_estacion : String
  ph_promedio : Option ℚ
  eh_promedio : Option ℚ
  deriving DecidableEq, Repr

/-- The diagnosis dictionary returned by `_determinar_estado_centro`.
    The zero-station branch returns a dictionary with keys
    `es_anaerobico`, `incumplimientos_mot`, `incumplimientos_ph_eh`,
    `umbral_estaciones`, `detalles` only; the normal branch instead carries
    `total_estaciones`, `tipo_monitoreo`, `umbrales_aplicados` and no
    `detalles`.  Keys that exist in only one branch are `Option` fields. -/
structure Diagnostico where
  es_anaerobico : Bool
  incumplimientos_mot : Nat
  incumplimientos_ph_eh : Nat
  umbral_estaciones : Nat
  total_estaciones : Option Nat
  tipo_monitoreo : Option String
  umbrales_aplicados : Option Umbrales
  detalles : Option String
  deriving DecidableEq, Repr

/-- Joint pH/Eh failure test for one station average (the loop body at
    lines 492-497 of `sedimento_extractor.py`): both values must be present
    and below their minima. -/
def incumplePhEh (umbrales : Umbrales) (p : PromedioPhRedox) : Bool :=
  (match p.ph_promedio with
   | some v => decide (v < umbrales.ph)
   | none => false) &&
  (match p.eh_promedio with
   | some v => decide (v < umbrales.eh)
   | none => false)

/-- `SedimentoExtractor._determinar_estado_centro`.  `int(total * 0.30)`
    truncates a nonnegative product, i.e. computes `3 * total / 10` in
    natural-number division (the double-precision product `total * 0.30`
    never truncates across an integer boundary for any realistic count). -/
def determinarEstadoCentro (estaciones : List Estacion)
    (promediosMot : List PromedioMot) (promediosPhRedox : List PromedioPhRedox)
    (tipoMonitoreo : String) : Diagnostico :=
  let umbrales := umbralesPara tipoMonitoreo
  let totalEstaciones := estaciones.length
  if totalEstaciones = 0 then
    { es_anaerobico := false
      incumplimientos_mot := 0
      incumplimientos_ph_eh := 0
      umbral_estaciones := 0
      total_estaciones := none
      tipo_monitoreo := none
      umbrales_aplicados := none
      detalles := some "Sin estaciones" }
  else
    let umbralIncumplimientos := max 3 (3 * totalEstaciones / 10)
    let incMot := promediosMot.countP (fun p => decide (umbrales.mot < p.mot_promedio))
    let incPhEh := promediosPhRedox.countP (incumplePhEh umbrales)
    let esAnaerobico :=
      decide (umbralIncumplimientos ≤ incMot) || decide (umbralIncumplimientos ≤ incPhEh)
    { es_anaerobico := esAnaerobico
      incumplimientos_mot := incMot
      incumplimientos_ph_eh := incPhEh
      umbral_estaciones := umbralIncumplimientos
      total_estaciones := some totalEstaciones
      tipo_monitoreo := some tipoMonitoreo
      umbrales_aplicados := some umbrales
      detalles := none }

/-! ## Station consolidation (`_consolidar_estaciones`) -/

/-- A location-table row (`_extraer_ubicaciones` entries). -/
structure Ubicacion where
  codigo_estacion : String
  utm_este : Option Int
  utm_norte : Option Int
  profundidad_m : Option ℚ
  deriving DecidableEq, Repr

/-- An organic-matter replicate measurement (`_extraer_mot_con_replicas`). -/
structure MedicionMot where
  codigo_estacion : String
  codigo_muestra : String
  replica : Nat
  peso_muestra_g : ℚ
  mot_porcentaje : ℚ
  deriving DecidableEq, Repr

/-- A pH/redox replicate measurement (`_extraer_ph_redox_con_replicas`). -/
structure MedicionPhRedox where
  codigo_estacion : String
  codigo_muestra : String
  replica : Nat
  ph : Option ℚ
  potencial_redox_mv : Option Int
  eh_mv : Option Int
  temperatura_c : Option ℚ
  deriving DecidableEq, Repr

/-- Ordered insertion for `sorted()` over station-code strings. -/
def insertaOrdenado (s : String) : List String → List String
  | [] => [s]
  | t :: ts => if s < t then s :: t :: ts else t :: insertaOrdenado s ts

/-- `sorted(...)` on a list of strings (ascending lexicographic order). -/
def ordenaCadenas (l : List String) : List String :=
  l.foldr insertaOrdenado []

/-- `SedimentoExtractor._consolidar_estaciones`: the station-code set is the
    union of codes seen in the location table and codes seen in either kind
    of measurement; each code becomes a station whose location attributes
    come from the first matching location row, if any. -/
def consolidarEstaciones (ubicaciones : List Ubicacion)
    (mot : List MedicionMot) (phRedox : List MedicionPhRedox) : List Estacion :=
  let codigosUnicos :=
    (ubicaciones.map (·.codigo_estacion)
      ++ (mot.map (·.codigo_estacion) ++ phRedox.map (·.codigo_estacion))).dedup
  (ordenaCadenas codigosUnicos).map (fun codigo =>
    match ubicaciones.find? (fun u => u.codigo_estacion = codigo) with
    | some u =>
      { codigo := codigo
        utm_este := u.utm_este
        utm_norte := u.utm_norte
        profundidad_m := u.profundidad_m }
    | none =>
      { codigo := codigo
        utm_este := none
        utm_norte := none
        profundidad_m := none })

/-! ## Concrete data for the classifier claims -/

/-- Eight stations E1..E8 with no location attributes. -/
def ejemploEstaciones8 : List Estacion :=
  ["E1", "E2", "E3", "E4", "E5", "E6", "E7", "E8"].map
    (fun c => { codigo := c, utm_este := none, utm_norte := none, profundidad_m := none })

/-- Organic-matter averages 10.0, 9.5, 9.1, 8.0, 8.0, 8.0, 7.0, 7.0 for E1..E8. -/
def ejemploPromediosMot8 : List PromedioMot :=
  [⟨"E1", 10, 3⟩, ⟨"E2", mkRat 19 2, 3⟩, ⟨"E3", mkRat 91 10, 3⟩, ⟨"E4", 8, 3⟩,
   ⟨"E5", 8, 3⟩, ⟨"E6", 8, 3⟩, ⟨"E7", 7, 3⟩, ⟨"E8", 7, 3⟩]

/-- The MOT maximum of a recognized monitoring type, written out by case. -/
def motMaximo (tipo : String) : ℚ :=
  if tipo = "INFA-POSTANAEROBICA" then 8 else 9

/-! ## Consolidation invariant (claim C8) -/

/-! ## Date normalization (`MetadataExtractor._normalizar_fecha`) -/

/-- The separator class of the date re-split: slash or hyphen. -/
def esSeparadorFecha (c : Char) : Bool := c = '/' || c = '-'

/-- The re-split of `s` on slash-or-hyphen separators. -/
def divideSeparadores : List Char → List (List Char)
  | [] => [[]]
  | c :: cs =>
    if esSeparadorFecha c then
      [] :: divideSeparadores cs
    else
      match divideSeparadores cs with
      | [] => [[c]]
      | p :: ps => (c :: p) :: ps

/-- Decimal value of a digit-character list. -/
def valorDigitos (l : List Char) : Nat :=
  l.foldl (fun n c => 10 * n + (c.toNat - 48)) 0

/-- `int(part)` restricted to unsigned decimal strings: a nonempty all-digit
    part parses to its value, anything else raises (embedded as `none`). -/
def enteroDe (l : List Char) : Option Nat :=
  if l ≠ [] ∧ l.all Char.isDigit then some (valorDigitos l) else none

/-- `str.zfill(2)`: left-pad with zeros to width two. -/
def relleno2 (l : List Char) : List Char :=
  if l.length < 2 then List.replicate (2 - l.length) '0' ++ l else l

/-- `MetadataExtractor._normalizar_fecha`: split on `/` or `-`; with exactly
    three numeric parts inside the day/month/year bounds, rebuild
    `f"{año}-{mes.zfill(2)}-{dia.zfill(2)}"`; otherwise `None`. -/
def normalizarFecha (s : String) : Option String :=
  match divideSeparadores s.data with
  | [dia, mes, anio] =>
    match enteroDe dia, enteroDe mes, enteroDe anio with
    | some d, some m, some y =>
      if 1 ≤ d ∧ d ≤ 31 ∧ 1 ≤ m ∧ m ≤ 12 ∧ 1900 ≤ y ∧ y ≤ 2100 then
        some (String.mk (anio ++ '-' :: (relleno2 mes ++ '-' :: relleno2 dia)))
      else none
    | _, _, _ => none
  | _ => none

/-- The digit character of a value below ten. -/
def cifra (k : Nat) : Char := Char.ofNat (48 + k)

/-- Two-digit decimal rendering (the `DD` and `MM` fields). -/
def cifras2 (n : Nat) : List Char := [cifra (n / 10), cifra (n % 10)]

/-- Four-digit decimal rendering (the `YYYY` field). -/
def cifras4 (n : Nat) : List Char :=
  [cifra (n / 1000), cifra (n / 100 % 10), cifra (n / 10 % 10), cifra (n % 10)]

/-! ## Priority-ordered field extraction
    (`MetadataExtractor._buscar_con_patrones` / `_extraer_en_todas_paginas`).
    A regular-expression search is abstracted as a matcher
    `String → Option String` returning the captured group, and the pattern
    library dictionary as a partial map from field names to matcher lists. -/

/-- Python `str.strip` whitespace class (ASCII part). -/
def esBlanco (c : Char) : Bool :=
  c = ' ' || c = '\t' || c = '\n' || c = '\r' || c = '\x0b' || c = '\x0c'

/-- `str.strip()` on a character list. -/
def recorta (l : List Char) : List Char :=
  ((l.dropWhile esBlanco).reverse.dropWhile esBlanco).reverse

/-- `str.strip()` on a string. -/
def recortaCadena (s : String) : String := String.mk (recorta s.data)

/-- `MetadataExtractor._buscar_con_patrones`: try the matchers in priority
    order on one text; the first match wins and its capture is stripped. -/
def buscarConPatrones : List (String → Option String) → String → Option String
  | [], _ => none
  | p :: ps, texto =>
    match p texto with
    | some v => some (recortaCadena v)
    | none => buscarConPatrones ps texto

/-- The page loop of `MetadataExtractor._extraer_en_todas_paginas`: skip
    falsy pages, and on each remaining page try all patterns in priority
    order; the first page with a match ends the search. -/
def buclePaginas (patrones : List (String → Option String)) :
    List String → Option String
  | [] => none
  | texto :: resto =>
    if texto = "" then buclePaginas patrones resto
    else
      match buscarConPatrones patrones texto with
      | some v => some v
      | none => buclePaginas patrones resto

/-- `MetadataExtractor._extraer_en_todas_paginas`, including its guard that
    an unknown field name (not a key of the pattern dictionary) yields
    `None` without searching. -/
def extraerEnTodasPaginas (biblioteca : String → Option (List (String → Option String)))
    (campo : String) (textos : List String) : Option String :=
  match biblioteca campo with
  | none => none
  | some patrones => buclePaginas patrones textos

def patronesEjemplo : List (String → Option String) :=
  [fun _ => none,
   fun t => if t = "pagina dos" then some " 5 " else none,
   fun t => if t = "pagina dos" then some "9" else none]

def bibliotecaEjemplo : String → Option (List (String → Option String)) :=
  fun c => if c = "CAMPO" then some patronesEjemplo else none

/-! ## Multi-method page text acquisition
    (`PDFTextExtractor.extraer_todas_paginas`).  The per-page outputs of the
    three underlying engines are inputs of the embedding: the native
    per-page texts, the alternative per-page texts (an empty list when that
    engine is unavailable), and the per-page table-reconstruction text (an
    empty string when no table is found or the page fails). -/

/-- `not texto or len(texto.strip()) < 50`: the escalation trigger. -/
def textoCorto (s : String) : Bool := decide ((recorta s.data).length < 50)

/-- Body of the second-engine pass for page `i`: a short page is replaced by
    the alternative engine's text when that text exists and is nonempty. -/
def pasoAlternativo (pypdf : List String) (i : Nat) (t : String) : String :=
  if textoCorto t then
    match pypdf[i]? with
    | some u => if u = "" then t else u
    | none => t
  else t

/-- The second-engine loop (`for i in range(len(textos)): ...`). -/
def combinaAlternativo (pypdf : List String) : Nat → List String → List String
  | _, [] => []
  | i, t :: ts => pasoAlternativo pypdf i t :: combinaAlternativo pypdf (i + 1) ts

/-- Body of the table-reconstruction pass for page `i`: a still-short page is
    replaced by the table text when it is nonempty. -/
def pasoTabla (tabla : Nat → String) (i : Nat) (t : String) : String :=
  if textoCorto t then (if tabla i = "" then t else tabla i) else t

/-- The table-reconstruction loop (`for i, texto in enumerate(textos): ...`). -/
def aplicaTablas (tabla : Nat → String) : Nat → List String → List String
  | _, [] => []
  | i, t :: ts => pasoTabla tabla i t :: aplicaTablas tabla (i + 1) ts

/-- `PDFTextExtractor.extraer_todas_paginas`: native texts first; if any page
    is short, overlay the alternative engine; then overlay table texts on
    pages that are still short. -/
def extraerTodasPaginas (plumber pypdf : List String) (tabla : Nat → String) :
    List String :=
  let textos :=
    if plumber.any textoCorto then combinaAlternativo pypdf 0 plumber else plumber
  aplicaTablas tabla 0 textos

/-! ## Organic-matter table line parsing
    (`SedimentoExtractor._extraer_mot_con_replicas`, lines 239-273: the
    per-line station/replica match, decimal-token extraction, positional
    assignment and range validation). -/

/-- Maximal leading digit run of a character list, with the remainder. -/
def tomaDigitos : List Char → List Char × List Char
  | [] => ([], [])
  | c :: cs =>
    if c.isDigit then
      let par := tomaDigitos cs
      (c :: par.1, par.2)
    else ([], c :: cs)

/-- One anchored attempt of the station-replica pattern (`E` digits `-R`
    digits) at the head of the list, giving the two digit groups. -/
def intentaEstRep : List Char → Option (List Char × List Char)
  | 'E' :: cs =>
    match tomaDigitos cs with
    | ([], _) => none
    | (ds, '-' :: 'R' :: cs2) =>
      match tomaDigitos cs2 with
      | ([], _) => none
      | (rs, _) => some (ds, rs)
    | (_, _) => none
  | _ => none

/-- `re.search` of the station-replica pattern: first position where the
    anchored attempt succeeds. -/
def buscaEstRep : List Char → Option (List Char × List Char)
  | [] => none
  | c :: cs =>
    match intentaEstRep (c :: cs) with
    | some r => some r
    | none => buscaEstRep cs

/-- Group a character list into maximal digit runs and single non-digits. -/
def agrupaDigitos : List Char → List (List Char)
  | [] => []
  | c :: cs =>
    match agrupaDigitos cs with
    | [] => [[c]]
    | [] :: gs => [c] :: [] :: gs
    | (d :: g) :: gs =>
      if c.isDigit && d.isDigit then (c :: d :: g) :: gs
      else [c] :: (d :: g) :: gs

/-- A nonempty all-digit group. -/
def esGrupoDigitos (l : List Char) : Bool := !l.isEmpty && l.all Char.isDigit

/-- The exact rational value of `float("<d1>.<d2>")` for decimal digits. -/
def valorDecimal (d1 d2 : List Char) : ℚ :=
  mkRat (valorDigitos d1 * 10 ^ d2.length + valorDigitos d2) (10 ^ d2.length)

/-- Scan the digit groups for decimal tokens: digits, one comma-or-period,
    digits — the findall of the decimal-number pattern. -/
def buscaDecimales : List (List Char) → List ℚ
  | g1 :: g2 :: g3 :: rest =>
    if esGrupoDigitos g1 && (g2 = [','] || g2 = ['.']) && esGrupoDigitos g3 then
      valorDecimal g1 g3 :: buscaDecimales rest
    else
      buscaDecimales (g2 :: g3 :: rest)
  | _ => []

/-- All decimal tokens of a line (`re.findall` of digits-separator-digits). -/
def extraerDecimales (l : List Char) : List ℚ :=
  buscaDecimales (agrupaDigitos l)

/-- Round half to even on an exact fraction `a / b` (`b` positive): the
    idealization of Python `round` over the rational embedding of floats. -/
def redondeoMedioPar (a : Int) (b : Nat) : Int :=
  let f := Int.fdiv a b
  let r := a - f * b
  if 2 * r < b then f
  else if (b : Int) < 2 * r then f + 1
  else if f % 2 = 0 then f else f + 1

/-- Python `round(q, n)` over the rational embedding. -/
def redondeaA (n : Nat) (q : ℚ) : ℚ :=
  mkRat (redondeoMedioPar (q.num * 10 ^ n) q.den) (10 ^ n)

/-- The per-line body of `_extraer_mot_con_replicas`: match the
    station-replica code, extract the decimal tokens, take the first as the
    sample weight and the second as the MOT percentage, validate each range,
    and build the record (or skip the line entirely). -/
def extraerMotLinea (linea : String) : Option MedicionMot :=
  match buscaEstRep linea.data with
  | none => none
  | some (ds, rs) =>
    let numeros := extraerDecimales linea.data
    if numeros.length < 2 then none
    else
      let peso := numeros.getD 0 0
      let mot := numeros.getD 1 0
      if ¬(mkRat 1 100 ≤ peso ∧ peso ≤ 15) then none
      else if ¬(mkRat 1 2 ≤ mot ∧ mot ≤ 100) then none
      else
        some
          { codigo_estacion := String.mk ('E' :: ds)
            codigo_muestra := String.mk ('E' :: ds ++ '-' :: 'R' :: rs)
            replica := valorDigitos rs
            peso_muestra_g := redondeaA 3 peso
            mot_porcentaje := redondeaA 2 mot }

/-- The range-based slot assignment described by the specification (§4.3),
    written from the spec's words for comparison with the source embedding:
    the sample weight is the first decimal token lying in [0.01, 15.0], the
    percentage the first token at a different position lying in [0.5, 100],
    wherever they occur on the line. -/
def extraerMotLineaSegunEspec (linea : String) : Option MedicionMot :=
  match buscaEstRep linea.data with
  | none => none
  | some (ds, rs) =>
    let numeros := (extraerDecimales linea.data).enum
    match numeros.find? (fun par => decide (mkRat 1 100 ≤ par.2 ∧ par.2 ≤ 15)) with
    | none => none
    | some (i, peso) =>
      match numeros.find? (fun par =>
          decide (par.1 ≠ i ∧ mkRat 1 2 ≤ par.2 ∧ par.2 ≤ 100)) with
      | none => none
      | some (_, mot) =>
        some
          { codigo_estacion := String.mk ('E' :: ds)
            codigo_muestra := String.mk ('E' :: ds ++ '-' :: 'R' :: rs)
            replica := valorDigitos rs
            peso_muestra_g := redondeaA 3 peso
            mot_porcentaje := redondeaA 2 mot }

/-! ## Metadata extraction with the OCR fallback
    (`MetadataExtractor.extraer_todos`, `_extraer_con_ocr` and the per-field
    page-cascade helpers).  The OCR capability is an `Option`: `none` embeds
    the ImportError branch of `_extraer_con_ocr`, which returns the empty
    dictionary after logging a warning. -/

/-- ASCII uppercase of one character (`str.upper` on the keyword alphabet). -/
def mayuscula (c : Char) : Char :=
  if 'a' ≤ c ∧ c ≤ 'z' then Char.ofNat (c.toNat - 32) else c

/-- `str.upper()` over the character data. -/
def aMayusculas (s : String) : String := String.mk (s.data.map mayuscula)

/-- Substring containment (`pat in s`). -/
def esSubcadena (pat s : String) : Bool :=
  s.data.tails.any (fun t => pat.data.isPrefixOf t)

/-- `MetadataExtractor._normalizar_tipo_monitoreo`. -/
def normalizarTipoMonitoreo (valor : String) : Option String :=
  if valor = "" then none
  else
    let u := aMayusculas valor
    if esSubcadena "POST" u || esSubcadena "POSTANAER" u then some "INFA-POSTANAEROBICA"
    else if esSubcadena "INFA" u then some "INFA"
    else if esSubcadena "CPS" u then some "CPS"
    else some (recortaCadena valor)

/-- `MetadataExtractor._normalizar_condicion`. -/
def normalizarCondicion (valor : String) : Option String :=
  if valor = "" then none
  else
    let u := aMayusculas valor
    if esSubcadena "ANAER" u then some "ANAEROBICO"
    else if esSubcadena "AER" u then some "AEROBICO"
    else none

/-- First raw (unstripped) capture among the matchers, in priority order. -/
def primeraSinRecorte : List (String → Option String) → String → Option String
  | [], _ => none
  | p :: ps, texto =>
    match p texto with
    | some v => some v
    | none => primeraSinRecorte ps texto

/-- Inner pattern loop of `_extraer_categoria_todas_paginas`: a matched
    category outside 1..5 does not stop the search. -/
def buscaCategoriaEn : List (String → Option Nat) → String → Option Nat
  | [], _ => none
  | p :: ps, texto =>
    match p texto with
    | some cat => if 1 ≤ cat ∧ cat ≤ 5 then some cat else buscaCategoriaEn ps texto
    | none => buscaCategoriaEn ps texto

/-- `MetadataExtractor._extraer_categoria_todas_paginas`. -/
def bucleCategoria (patrones : List (String → Option Nat)) : List String → Option Nat
  | [] => none
  | texto :: resto =>
    if texto = "" then bucleCategoria patrones resto
    else
      match buscaCategoriaEn patrones texto with
      | some cat => some cat
      | none => bucleCategoria patrones resto

/-- `MetadataExtractor._extraer_tipo_monitoreo_todas_paginas`: the first
    match ends the search even when normalization returns nothing. -/
def bucleTipo (patrones : List (String → Option String)) : List String → Option String
  | [] => none
  | texto :: resto =>
    if texto = "" then bucleTipo patrones resto
    else
      match buscarConPatrones patrones texto with
      | some valor => normalizarTipoMonitoreo valor
      | none => bucleTipo patrones resto

/-- The shared shape of `_extraer_fecha_ingreso_todas_paginas` and
    `_extraer_fecha_muestreo_todas_paginas`: the first raw capture is date-
    normalized and returned even when normalization rejects it. -/
def bucleFecha (patrones : List (String → Option String)) : List String → Option String
  | [] => none
  | texto :: resto =>
    if texto = "" then bucleFecha patrones resto
    else
      match primeraSinRecorte patrones texto with
      | some valor => normalizarFecha valor
      | none => bucleFecha patrones resto

/-- A nonempty all-digit string (the `^\d+$` filter on names). -/
def esSoloDigitos (s : String) : Bool := !s.data.isEmpty && s.data.all Char.isDigit

/-- Inner pattern loop of `_extraer_nombre_centro_todas_paginas`: an
    all-digit capture does not stop the search. -/
def buscaNombreEn : List (String → Option String) → String → Option String
  | [], _ => none
  | p :: ps, texto =>
    match p texto with
    | some v =>
      if esSoloDigitos (recortaCadena v) then buscaNombreEn ps texto
      else some (recortaCadena v)
    | none => buscaNombreEn ps texto

/-- `MetadataExtractor._extraer_nombre_centro_todas_paginas`. -/
def bucleNombre (patrones : List (String → Option String)) : List String → Option String
  | [] => none
  | texto :: resto =>
    if texto = "" then bucleNombre patrones resto
    else
      match buscaNombreEn patrones texto with
      | some nombre => some nombre
      | none => bucleNombre patrones resto

/-- `MetadataExtractor._extraer_condicion_centro`: pattern search over the
    full text first; a truthy capture is normalized and returned, otherwise
    the table scan (abstracted as its result) decides. -/
def extraerCondicionCentro (patrones : List (String → Option String))
    (textoCompleto : String) (condicionTablas : Option String) : Option String :=
  match buscarConPatrones patrones textoCompleto with
  | some condicion =>
    if condicion = "" then condicionTablas else normalizarCondicion condicion
  | none => condicionTablas

/-- The metadata dictionary of `_inicializar_metadatos`. -/
structure Metadatos where
  nombre_archivo : String
  codigo_ot : Option String
  codigo_centro : Option String
  categoria : Option Nat
  tipo_monitoreo : Option String
  fecha_ingreso : Option String
  fecha_muestreo : Option String
  condicion_centro : Option String
  nombre_centro : Option String
  responsable : Option String
  region : Option String
  deriving DecidableEq, Repr

/-- `MetadataExtractor._inicializar_metadatos`. -/
def inicializarMetadatos (nombreArchivo : String) : Metadatos :=
  { nombre_archivo := nombreArchivo
    codigo_ot := none
    codigo_centro := none
    categoria := none
    tipo_monitoreo := none
    fecha_ingreso := none
    fecha_muestreo := none
    condicion_centro := none
    nombre_centro := none
    responsable := none
    region := none }

/-- The dictionary the OCR path can return (`_parsear_metadatos` keys); a
    `some` field is a present, truthy entry. -/
structure MetadatosOcr where
  codigo_centro : Option String
  nombre_centro : Option String
  categoria : Option Nat
  tipo_monitoreo : Option String
  fecha_muestreo : Option String
  fecha_ingreso : Option String
  responsable : Option String
  deriving DecidableEq, Repr

/-- The empty OCR dictionary. -/
def vacioOcr : MetadatosOcr :=
  { codigo_centro := none
    nombre_centro := none
    categoria := none
    tipo_monitoreo := none
    fecha_muestreo := none
    fecha_ingreso := none
    responsable := none }

/-- `if metadatos_ocr:` — the dictionary truthiness test. -/
def esVacioOcr (o : MetadatosOcr) : Bool :=
  o.codigo_centro.isNone && o.nombre_centro.isNone && o.categoria.isNone
    && o.tipo_monitoreo.isNone && o.fecha_muestreo.isNone && o.fecha_ingreso.isNone
    && o.responsable.isNone

/-- `MetadataExtractor._extraer_con_ocr`: a missing OCR capability
    (ImportError) is caught, a warning is logged and the empty dictionary is
    returned; an available capability runs and yields its dictionary. -/
def extraerConOcr (ocr : Option (Unit → MetadatosOcr)) : MetadatosOcr :=
  match ocr with
  | some f => f ()
  | none => vacioOcr

/-- The per-key overwrite loop (`for key, value in metadatos_ocr.items():
    if value: metadatos[key] = value`). -/
def aplicarOcr (m : Metadatos) (o : MetadatosOcr) : Metadatos :=
  { m with
    codigo_centro := o.codigo_centro.or m.codigo_centro
    nombre_centro := o.nombre_centro.or m.nombre_centro
    categoria := o.categoria.or m.categoria
    tipo_monitoreo := o.tipo_monitoreo.or m.tipo_monitoreo
    fecha_muestreo := o.fecha_muestreo.or m.fecha_muestreo
    fecha_ingreso := o.fecha_ingreso.or m.fecha_ingreso
    responsable := o.responsable.or m.responsable }

/-- `MetadataExtractor.extraer_todos`.  The work-order code extracted from
    the file name, the per-page texts, the OCR capability, the pattern
    library entries and the table-scan result for the site condition are the
    inputs; the body follows steps 1-7 of the source, including the outer
    exception handler that returns the record built so far when page 1 is
    missing (the `textos_por_pagina[0]` IndexError). -/
def extraerTodos (nombreArchivo : String) (otNombre : Option String)
    (textos : List String) (ocr : Option (Unit → MetadatosOcr))
    (patronesOT : List (String → Option String))
    (biblioteca : String → Option (List (String → Option String)))
    (patronesCategoria : List (String → Option Nat))
    (patronesTipo patronesFechaIngreso patronesFechaMuestreo patronesNombre
      patronesCondicion : List (String → Option String))
    (condicionTablas : Option String) : Metadatos :=
  let m0 := { inicializarMetadatos nombreArchivo with codigo_ot := otNombre }
  match textos[0]? with
  | none => m0
  | some pagina1 =>
    let corta := pagina1 = "" || decide ((recorta pagina1.data).length < 50)
    let mOcr := if corta then extraerConOcr ocr else vacioOcr
    let usarOcr := corta && !esVacioOcr mOcr
    let m1 := if usarOcr then aplicarOcr m0 mOcr else m0
    let textoCompleto := String.intercalate "\n" textos
    let m2 :=
      if m1.codigo_ot = none then
        { m1 with codigo_ot := buscarConPatrones patronesOT textoCompleto }
      else m1
    let m3 :=
      if usarOcr then m2
      else
        { m2 with
          codigo_centro := extraerEnTodasPaginas biblioteca "codigo_centro" textos
          categoria := bucleCategoria patronesCategoria textos
          tipo_monitoreo := bucleTipo patronesTipo textos
          fecha_ingreso := bucleFecha patronesFechaIngreso textos
          fecha_muestreo := bucleFecha patronesFechaMuestreo textos
          nombre_centro := bucleNombre patronesNombre textos }
    if m3.condicion_centro = none then
      { m3 with condicion_centro :=
          extraerCondicionCentro patronesCondicion textoCompleto condicionTablas }
    else m3

/-! ## Theorems for the claims -/

lemma umbralesPara_infa : umbralesPara "INFA" = ⟨9, mkRat 71 10, 50⟩ := by decide

lemma umbralesPara_post :
    umbralesPara "INFA-POSTANAEROBICA" = ⟨8, mkRat 71 10, 75⟩ := by decide

lemma umbralesPara_cps : umbralesPara "CPS" = ⟨9, mkRat 71 10, 50⟩ := by decide

lemma umbralesPara_mot_de_tipo (tipo : String)
    (htipo : tipo = "INFA" ∨ tipo = "INFA-POSTANAEROBICA" ∨ tipo = "CPS") :
    (umbralesPara tipo).mot = motMaximo tipo := by
  rcases htipo with rfl | rfl | rfl <;> simp [motMaximo, umbralesPara_infa,
    umbralesPara_post, umbralesPara_cps]

/-- The spec's threshold formula `max(3, floor(total × 0.30))` agrees with the
    embedded natural-number division. -/
lemma formulaUmbral (n : ℕ) : ⌊(n : ℚ) * (30 / 100)⌋₊ = 3 * n / 10 := by
  have h1 : (n : ℚ) * (30 / 100) = ((3 * n : ℕ) : ℚ) / ((10 : ℕ) : ℚ) := by
    push_cast
    ring
  rw [h1, Nat.floor_div_nat, Nat.floor_natCast]

/-- C1: for every non-empty station list and recognized monitoring type, the
    violation threshold is `max(3, floor(totalStations × 0.30))`, a station
    counts as an organic-matter violation exactly when its average strictly
    exceeds the type's MOT maximum, the site is ANAEROBIC iff one of the two
    violation counts reaches the threshold; and for the 8-station example with
    averages [10.0, 9.5, 9.1, 8.0, 8.0, 8.0, 7.0, 7.0] under the standard
    maximum 9.0, exactly 3 stations violate, the threshold is 3, and the
    classification is ANAEROBIC. -/
theorem c1_clasificacion (estaciones : List Estacion)
    (promediosMot : List PromedioMot) (promediosPhRedox : List PromedioPhRedox)
    (tipo : String) (hne : estaciones ≠ [])
    (htipo : tipo = "INFA" ∨ tipo = "INFA-POSTANAEROBICA" ∨ tipo = "CPS") :
    (determinarEstadoCentro estaciones promediosMot promediosPhRedox tipo).umbral_estaciones
        = max 3 ⌊(estaciones.length : ℚ) * (30 / 100)⌋₊
    ∧ (determinarEstadoCentro estaciones promediosMot promediosPhRedox tipo).incumplimientos_mot
        = promediosMot.countP (fun p => decide (motMaximo tipo < p.mot_promedio))
    ∧ ((determinarEstadoCentro estaciones promediosMot promediosPhRedox tipo).es_anaerobico = true
        ↔ (determinarEstadoCentro estaciones promediosMot promediosPhRedox tipo).umbral_estaciones
            ≤ (determinarEstadoCentro estaciones promediosMot promediosPhRedox tipo).incumplimientos_mot
          ∨ (determinarEstadoCentro estaciones promediosMot promediosPhRedox tipo).umbral_estaciones
            ≤ (determinarEstadoCentro estaciones promediosMot promediosPhRedox tipo).incumplimientos_ph_eh)
    ∧ (determinarEstadoCentro ejemploEstaciones8 ejemploPromediosMot8 [] "INFA").incumplimientos_mot = 3
    ∧ (determinarEstadoCentro ejemploEstaciones8 ejemploPromediosMot8 [] "INFA").umbral_estaciones = 3
    ∧ (determinarEstadoCentro ejemploEstaciones8 ejemploPromediosMot8 [] "INFA").es_anaerobico = true := by
  have hlen : estaciones.length ≠ 0 := by
    simpa [List.length_eq_zero] using hne
  refine ⟨?_, ?_, ?_, by decide, by decide, by decide⟩
  · rw [formulaUmbral]
    simp [determinarEstadoCentro, hlen]
  · rw [← umbralesPara_mot_de_tipo tipo htipo]
    simp [determinarEstadoCentro, hlen]
  · simp [determinarEstadoCentro, hlen]

/-- C1 witness: the theorem applied to the concrete 8-station example. -/
theorem c1_clasificacion_witness :
    (ejemploEstaciones8 ≠ []
      ∧ ("INFA" = "INFA" ∨ "INFA" = "INFA-POSTANAEROBICA" ∨ "INFA" = "CPS"))
    ∧ ((determinarEstadoCentro ejemploEstaciones8 ejemploPromediosMot8 [] "INFA").umbral_estaciones
        = max 3 ⌊(ejemploEstaciones8.length : ℚ) * (30 / 100)⌋₊
      ∧ (determinarEstadoCentro ejemploEstaciones8 ejemploPromediosMot8 [] "INFA").incumplimientos_mot
        = ejemploPromediosMot8.countP (fun p => decide (motMaximo "INFA" < p.mot_promedio))
      ∧ ((determinarEstadoCentro ejemploEstaciones8 ejemploPromediosMot8 [] "INFA").es_anaerobico = true
          ↔ (determinarEstadoCentro ejemploEstaciones8 ejemploPromediosMot8 [] "INFA").umbral_estaciones
              ≤ (determinarEstadoCentro ejemploEstaciones8 ejemploPromediosMot8 [] "INFA").incumplimientos_mot
            ∨ (determinarEstadoCentro ejemploEstaciones8 ejemploPromediosMot8 [] "INFA").umbral_estaciones
              ≤ (determinarEstadoCentro ejemploEstaciones8 ejemploPromediosMot8 [] "INFA").incumplimientos_ph_eh)
      ∧ (determinarEstadoCentro ejemploEstaciones8 ejemploPromediosMot8 [] "INFA").incumplimientos_mot = 3
      ∧ (determinarEstadoCentro ejemploEstaciones8 ejemploPromediosMot8 [] "INFA").umbral_estaciones = 3
      ∧ (determinarEstadoCentro ejemploEstaciones8 ejemploPromediosMot8 [] "INFA").es_anaerobico = true) :=
  ⟨⟨by decide, Or.inl rfl⟩,
    c1_clasificacion ejemploEstaciones8 ejemploPromediosMot8 [] "INFA"
      (by decide) (Or.inl rfl)⟩

/-- C2: a station counts toward the joint pH/Eh tally iff both its pH average
    is present and below the type's pH minimum and its Eh average is present
    and below the type's Eh minimum; a station failing at most one of the two
    conditions contributes nothing to the tally. -/
theorem c2_incumplimiento_conjunto (estaciones : List Estacion)
    (promediosMot : List PromedioMot) (promediosPhRedox : List PromedioPhRedox)
    (tipo : String) (hne : estaciones ≠ []) :
    (determinarEstadoCentro estaciones promediosMot promediosPhRedox tipo).incumplimientos_ph_eh
        = promediosPhRedox.countP (fun p =>
            (p.ph_promedio.any fun v => decide (v < (umbralesPara tipo).ph))
            && (p.eh_promedio.any fun w => decide (w < (umbralesPara tipo).eh)))
    ∧ ∀ p : PromedioPhRedox,
        (p.ph_promedio = none ∨ p.eh_promedio = none
          ∨ (∃ v, p.ph_promedio = some v ∧ ¬ v < (umbralesPara tipo).ph)
          ∨ (∃ w, p.eh_promedio = some w ∧ ¬ w < (umbralesPara tipo).eh)) →
        (determinarEstadoCentro estaciones promediosMot (p :: promediosPhRedox) tipo).incumplimientos_ph_eh
          = (determinarEstadoCentro estaciones promediosMot promediosPhRedox tipo).incumplimientos_ph_eh := by
  have hlen : estaciones.length ≠ 0 := by
    simpa [List.length_eq_zero] using hne
  have hpred : ∀ p : PromedioPhRedox,
      incumplePhEh (umbralesPara tipo) p
        = ((p.ph_promedio.any fun v => decide (v < (umbralesPara tipo).ph))
            && (p.eh_promedio.any fun w => decide (w < (umbralesPara tipo).eh))) := by
    intro p
    rcases p with ⟨c, hph, heh⟩
    cases hph <;> cases heh <;> simp [incumplePhEh, Option.any]
  constructor
  · simp only [determinarEstadoCentro, hlen, reduceIte]
    exact List.countP_congr (fun p _ => by rw [hpred p])
  · intro p hp
    simp only [determinarEstadoCentro, hlen, reduceIte, List.countP_cons]
    have hfalso : incumplePhEh (umbralesPara tipo) p = false := by
      rw [hpred p]
      rcases hp with h | h | ⟨v, hv, hlt⟩ | ⟨w, hw, hlt⟩
      · simp [h]
      · simp [h]
      · simp [hv, hlt]
      · simp [hw, hlt]
    simp [hfalso]

/-- C2 witness: with 8 stations and a station whose pH average 7.0 is below
    7.1 but whose Eh average 50 is not below 50, the joint tally is unchanged. -/
theorem c2_incumplimiento_conjunto_witness :
    ejemploEstaciones8 ≠ []
    ∧ (determinarEstadoCentro ejemploEstaciones8 ejemploPromediosMot8
          (⟨"E1", some 7, some 50⟩ :: []) "INFA").incumplimientos_ph_eh
        = (determinarEstadoCentro ejemploEstaciones8 ejemploPromediosMot8 [] "INFA").incumplimientos_ph_eh :=
  ⟨by decide,
    (c2_incumplimiento_conjunto ejemploEstaciones8 ejemploPromediosMot8 [] "INFA"
        (by decide)).2 ⟨"E1", some 7, some 50⟩
      (Or.inr (Or.inr (Or.inr ⟨50, rfl, by decide⟩)))⟩

/-- C3 counterexample: the zero-station diagnosis dictionary carries no
    `total_estaciones` key at all, so it does not report `total_stations = 0`. -/
theorem c3_contraejemplo :
    (determinarEstadoCentro [] [] [] "INFA").total_estaciones = none := rfl

/-- C3 amended: classifying an empty station list returns a normal diagnosis,
    not an error, with `es_anaerobico = false` and all counts zero; the
    degenerate diagnosis omits the `total_estaciones` key (it is not set
    to 0) and carries the detail text. -/
theorem c3_lista_vacia (promediosMot : List PromedioMot)
    (promediosPhRedox : List PromedioPhRedox) (tipo : String) :
    determinarEstadoCentro [] promediosMot promediosPhRedox tipo
      = { es_anaerobico := false
          incumplimientos_mot := 0
          incumplimientos_ph_eh := 0
          umbral_estaciones := 0
          total_estaciones := none
          tipo_monitoreo := none
          umbrales_aplicados := none
          detalles := some "Sin estaciones" } := rfl

/-- Pointwise-dominance counting helper: if the predicate transfers along a
    position-wise relation between two lists of the same length, the count of
    the first list is at most that of the second. -/
lemma countP_le_de_puntual {α : Type} (p : α → Bool) :
    ∀ (l l' : List α) (h : l.length = l'.length),
      (∀ i : Fin l.length, p (l.get i) = true → p (l'.get (Fin.cast h i)) = true) →
      l.countP p ≤ l'.countP p := by
  intro l
  induction l with
  | nil =>
    intro l' h _
    simp
  | cons a t ih =>
    intro l' h hp
    cases l' with
    | nil => simp at h
    | cons b t' =>
      have hlen : t.length = t'.length := by simpa using h
      have hht : p a = true → p b = true := hp ⟨0, by simp⟩
      have htail := ih t' hlen (fun i hi => hp i.succ hi)
      simp only [List.countP_cons]
      rcases Bool.eq_false_or_eq_true (p a) with ha | ha
      · have hb := hht ha
        simp only [ha, hb]
        simpa using Nat.add_le_add_right htail 1
      · have hpaso : t.countP p ≤ t'.countP p + (if p b = true then 1 else 0) :=
          le_trans htail (Nat.le_add_right _ _)
        simp only [ha]
        simpa using hpaso

/-- C10: with stations, pH/Eh averages and monitoring type fixed, raising
    organic-matter averages pointwise never lowers the violation count, never
    changes the threshold, and never flips the diagnosis from ANAEROBIC to
    AEROBIC. -/
theorem c10_monotonia (estaciones : List Estacion)
    (promediosMot promediosMot' : List PromedioMot)
    (promediosPhRedox : List PromedioPhRedox) (tipo : String)
    (hlen : promediosMot.length = promediosMot'.length)
    (hmono : ∀ i : Fin promediosMot.length,
        (promediosMot.get i).mot_promedio
          ≤ (promediosMot'.get (Fin.cast hlen i)).mot_promedio) :
    (determinarEstadoCentro estaciones promediosMot promediosPhRedox tipo).incumplimientos_mot
        ≤ (determinarEstadoCentro estaciones promediosMot' promediosPhRedox tipo).incumplimientos_mot
    ∧ (determinarEstadoCentro estaciones promediosMot promediosPhRedox tipo).umbral_estaciones
        = (determinarEstadoCentro estaciones promediosMot' promediosPhRedox tipo).umbral_estaciones
    ∧ ((determinarEstadoCentro estaciones promediosMot promediosPhRedox tipo).es_anaerobico = true →
        (determinarEstadoCentro estaciones promediosMot' promediosPhRedox tipo).es_anaerobico = true) := by
  have hcount : ∀ u : Umbrales,
      promediosMot.countP (fun p => decide (u.mot < p.mot_promedio))
        ≤ promediosMot'.countP (fun p => decide (u.mot < p.mot_promedio)) := by
    intro u
    refine countP_le_de_puntual _ promediosMot promediosMot' hlen ?_
    intro i hi
    have := hmono i
    simp only [decide_eq_true_eq] at hi ⊢
    exact lt_of_lt_of_le hi this
  rcases Nat.eq_zero_or_pos estaciones.length with hz | hpos
  · simp [determinarEstadoCentro, hz]
  · have hnz : estaciones.length ≠ 0 := Nat.pos_iff_ne_zero.mp hpos
    refine ⟨?_, ?_, ?_⟩
    · simpa [determinarEstadoCentro, hnz] using hcount (umbralesPara tipo)
    · simp [determinarEstadoCentro, hnz]
    · simp only [determinarEstadoCentro, hnz, reduceIte, Bool.or_eq_true,
        decide_eq_true_eq]
      intro h
      rcases h with h | h
      · exact Or.inl (le_trans h (hcount (umbralesPara tipo)))
      · exact Or.inr h

/-- C10 witness: applying the monotonicity theorem at the 8-station example
    with station E4's average raised from 8.0 to 9.5. -/
theorem c10_monotonia_witness :
    (ejemploPromediosMot8.length
        = (ejemploPromediosMot8.take 3 ++ ⟨"E4", mkRat 19 2, 3⟩ :: ejemploPromediosMot8.drop 4).length
      ∧ ∀ i : Fin ejemploPromediosMot8.length,
          (ejemploPromediosMot8.get i).mot_promedio
            ≤ ((ejemploPromediosMot8.take 3 ++ ⟨"E4", mkRat 19 2, 3⟩ :: ejemploPromediosMot8.drop 4).get
                (Fin.cast (by decide) i)).mot_promedio)
    ∧ ((determinarEstadoCentro ejemploEstaciones8 ejemploPromediosMot8 [] "INFA").incumplimientos_mot
        ≤ (determinarEstadoCentro ejemploEstaciones8
            (ejemploPromediosMot8.take 3 ++ ⟨"E4", mkRat 19 2, 3⟩ :: ejemploPromediosMot8.drop 4)
            [] "INFA").incumplimientos_mot
      ∧ (determinarEstadoCentro ejemploEstaciones8 ejemploPromediosMot8 [] "INFA").umbral_estaciones
        = (determinarEstadoCentro ejemploEstaciones8
            (ejemploPromediosMot8.take 3 ++ ⟨"E4", mkRat 19 2, 3⟩ :: ejemploPromediosMot8.drop 4)
            [] "INFA").umbral_estaciones
      ∧ ((determinarEstadoCentro ejemploEstaciones8 ejemploPromediosMot8 [] "INFA").es_anaerobico = true →
          (determinarEstadoCentro ejemploEstaciones8
            (ejemploPromediosMot8.take 3 ++ ⟨"E4", mkRat 19 2, 3⟩ :: ejemploPromediosMot8.drop 4)
            [] "INFA").es_anaerobico = true)) :=
  ⟨⟨by decide, by decide⟩,
    c10_monotonia ejemploEstaciones8 ejemploPromediosMot8
      (ejemploPromediosMot8.take 3 ++ ⟨"E4", mkRat 19 2, 3⟩ :: ejemploPromediosMot8.drop 4)
      [] "INFA" (by decide) (by decide)⟩

lemma mem_insertaOrdenado (a s : String) (l : List String) :
    a ∈ insertaOrdenado s l ↔ a = s ∨ a ∈ l := by
  induction l with
  | nil => simp [insertaOrdenado]
  | cons t ts ih =>
    by_cases hst : s < t
    · simp [insertaOrdenado, hst]
    · simp [insertaOrdenado, hst, ih]
      tauto

lemma mem_ordenaCadenas (a : String) (l : List String) :
    a ∈ ordenaCadenas l ↔ a ∈ l := by
  induction l with
  | nil => simp [ordenaCadenas]
  | cons t ts ih =>
    simp only [ordenaCadenas, List.foldr_cons] at ih ⊢
    rw [mem_insertaOrdenado, ih]
    simp [eq_comm]

/-- C8: every station code occurring in an organic-matter or pH/redox
    replicate measurement appears in the consolidated station set; a code
    with no location-table row still becomes a station, with all location
    attributes null. -/
theorem c8_codigos_consolidados (ubicaciones : List Ubicacion)
    (mot : List MedicionMot) (phRedox : List MedicionPhRedox) (c : String)
    (hc : c ∈ mot.map (·.codigo_estacion) ++ phRedox.map (·.codigo_estacion)) :
    ∃ e ∈ consolidarEstaciones ubicaciones mot phRedox,
      e.codigo = c
      ∧ (ubicaciones.find? (fun u => u.codigo_estacion = c) = none →
          e.utm_este = none ∧ e.utm_norte = none ∧ e.profundidad_m = none) := by
  have hdedup : c ∈ (ubicaciones.map (·.codigo_estacion)
      ++ (mot.map (·.codigo_estacion) ++ phRedox.map (·.codigo_estacion))).dedup := by
    rw [List.mem_dedup]
    exact List.mem_append_right _ hc
  have hord : c ∈ ordenaCadenas ((ubicaciones.map (·.codigo_estacion)
      ++ (mot.map (·.codigo_estacion) ++ phRedox.map (·.codigo_estacion))).dedup) :=
    (mem_ordenaCadenas _ _).mpr hdedup
  refine ⟨_, List.mem_map_of_mem _ hord, ?_, ?_⟩
  · cases ubicaciones.find? (fun u => u.codigo_estacion = c) <;> simp
  · intro hnone
    rw [hnone]
    simp

/-- C8 witness: a measurement code with no location row becomes a station. -/
theorem c8_codigos_consolidados_witness :
    ("E2" ∈ ([⟨"E2", "E2-R1", 1, 1, 10⟩] : List MedicionMot).map (·.codigo_estacion)
        ++ ([] : List MedicionPhRedox).map (·.codigo_estacion))
    ∧ ∃ e ∈ consolidarEstaciones [] [⟨"E2", "E2-R1", 1, 1, 10⟩] [],
        e.codigo = "E2"
        ∧ (([] : List Ubicacion).find? (fun u => u.codigo_estacion = "E2") = none →
            e.utm_este = none ∧ e.utm_norte = none ∧ e.profundidad_m = none) :=
  ⟨by decide,
    c8_codigos_consolidados [] [⟨"E2", "E2-R1", 1, 1, 10⟩] [] "E2" (by decide)⟩

lemma data_mk (l : List Char) : (String.mk l).data = l := rfl

lemma cifra_esDigito {k : Nat} (h : k < 10) : (cifra k).isDigit = true := by
  interval_cases k <;> decide

lemma cifra_no_sep {k : Nat} (h : k < 10) : esSeparadorFecha (cifra k) = false := by
  interval_cases k <;> decide

lemma toNat_cifra {k : Nat} (h : k < 10) : (cifra k).toNat - 48 = k := by
  interval_cases k <;> decide

lemma divide_sin_sep (ds : List Char)
    (hds : ∀ c ∈ ds, esSeparadorFecha c = false) :
    divideSeparadores ds = [ds] := by
  induction ds with
  | nil => rfl
  | cons c cs ih =>
    have hc := hds c (List.mem_cons_self _ _)
    have ihcs := ih (fun x hx => hds x (List.mem_cons_of_mem _ hx))
    simp [divideSeparadores, hc, ihcs]

lemma divide_append_sep (ds : List Char) (sep : Char) (rest : List Char)
    (hds : ∀ c ∈ ds, esSeparadorFecha c = false)
    (hsep : esSeparadorFecha sep = true) :
    divideSeparadores (ds ++ sep :: rest) = ds :: divideSeparadores rest := by
  induction ds with
  | nil => simp [divideSeparadores, hsep]
  | cons c cs ih =>
    have hc := hds c (List.mem_cons_self _ _)
    have ihcs := ih (fun x hx => hds x (List.mem_cons_of_mem _ hx))
    simp [divideSeparadores, hc, ihcs]

lemma sin_sep_cifras2 {n : Nat} (h : n < 100) :
    ∀ c ∈ cifras2 n, esSeparadorFecha c = false := by
  intro c hc
  have h1 : n / 10 < 10 := by omega
  have h2 : n % 10 < 10 := by omega
  simp only [cifras2, List.mem_cons, List.not_mem_nil, or_false] at hc
  rcases hc with rfl | rfl
  · exact cifra_no_sep h1
  · exact cifra_no_sep h2

lemma sin_sep_cifras4 {n : Nat} (h : n < 10000) :
    ∀ c ∈ cifras4 n, esSeparadorFecha c = false := by
  intro c hc
  have h1 : n / 1000 < 10 := by omega
  have h2 : n / 100 % 10 < 10 := by omega
  have h3 : n / 10 % 10 < 10 := by omega
  have h4 : n % 10 < 10 := by omega
  simp only [cifras4, List.mem_cons, List.not_mem_nil, or_false] at hc
  rcases hc with rfl | rfl | rfl | rfl
  · exact cifra_no_sep h1
  · exact cifra_no_sep h2
  · exact cifra_no_sep h3
  · exact cifra_no_sep h4

lemma enteroDe_cifras2 {n : Nat} (h : n < 100) : enteroDe (cifras2 n) = some n := by
  have h1 : n / 10 < 10 := by omega
  have h2 : n % 10 < 10 := by omega
  have hval : valorDigitos [cifra (n / 10), cifra (n % 10)] = n := by
    simp only [valorDigitos, List.foldl_cons, List.foldl_nil,
      toNat_cifra h1, toNat_cifra h2]
    omega
  simp [enteroDe, cifras2, cifra_esDigito h1, cifra_esDigito h2, hval]

lemma enteroDe_cifras4 {n : Nat} (h : n < 10000) : enteroDe (cifras4 n) = some n := by
  have h1 : n / 1000 < 10 := by omega
  have h2 : n / 100 % 10 < 10 := by omega
  have h3 : n / 10 % 10 < 10 := by omega
  have h4 : n % 10 < 10 := by omega
  have hval : valorDigitos
      [cifra (n / 1000), cifra (n / 100 % 10), cifra (n / 10 % 10), cifra (n % 10)] = n := by
    simp only [valorDigitos, List.foldl_cons, List.foldl_nil,
      toNat_cifra h1, toNat_cifra h2, toNat_cifra h3, toNat_cifra h4]
    omega
  simp [enteroDe, cifras4, cifra_esDigito h1, cifra_esDigito h2,
    cifra_esDigito h3, cifra_esDigito h4, hval]

lemma relleno2_cifras2 (n : Nat) : relleno2 (cifras2 n) = cifras2 n := by
  simp [relleno2, cifras2]

/-- C4: for every `DD/MM/YYYY` or `DD-MM-YYYY` string, normalization returns
    the ISO `YYYY-MM-DD` string exactly when day ∈ [1,31], month ∈ [1,12] and
    year ∈ [1900,2100], and returns `none` (unresolved) whenever a component
    is out of bounds — never a malformed date string. -/
theorem c4_normalizacion_fecha (d m y : Nat) (sep : Char)
    (hd : d < 100) (hm : m < 100) (hy : y < 10000)
    (hsep : sep = '/' ∨ sep = '-') :
    normalizarFecha (String.mk (cifras2 d ++ sep :: (cifras2 m ++ sep :: cifras4 y)))
      = (if 1 ≤ d ∧ d ≤ 31 ∧ 1 ≤ m ∧ m ≤ 12 ∧ 1900 ≤ y ∧ y ≤ 2100 then
          some (String.mk (cifras4 y ++ '-' :: (cifras2 m ++ '-' :: cifras2 d)))
        else none) := by
  have hsep' : esSeparadorFecha sep = true := by
    rcases hsep with rfl | rfl <;> decide
  have hdiv :
      divideSeparadores (cifras2 d ++ sep :: (cifras2 m ++ sep :: cifras4 y))
        = [cifras2 d, cifras2 m, cifras4 y] := by
    rw [divide_append_sep _ _ _ (sin_sep_cifras2 hd) hsep',
        divide_append_sep _ _ _ (sin_sep_cifras2 hm) hsep',
        divide_sin_sep _ (sin_sep_cifras4 hy)]
  simp only [normalizarFecha, data_mk, hdiv, enteroDe_cifras2 hd,
    enteroDe_cifras2 hm, enteroDe_cifras4 hy, relleno2_cifras2]

/-- C4 witness: the theorem applied to `01/02/2020`. -/
theorem c4_normalizacion_fecha_witness :
    (1 < 100 ∧ 2 < 100 ∧ 2020 < 10000 ∧ ('/' = '/' ∨ '/' = '-'))
    ∧ normalizarFecha (String.mk (cifras2 1 ++ '/' :: (cifras2 2 ++ '/' :: cifras4 2020)))
        = (if 1 ≤ 1 ∧ 1 ≤ 31 ∧ 1 ≤ 2 ∧ 2 ≤ 12 ∧ 1900 ≤ 2020 ∧ 2020 ≤ 2100 then
            some (String.mk (cifras4 2020 ++ '-' :: (cifras2 2 ++ '-' :: cifras2 1)))
          else none) :=
  ⟨⟨by decide, by decide, by decide, Or.inl rfl⟩,
    c4_normalizacion_fecha 1 2 2020 '/' (by decide) (by decide) (by decide) (Or.inl rfl)⟩

lemma buscar_en_indice :
    ∀ (patrones : List (String → Option String)) (texto : String)
      (j : Nat) (hj : j < patrones.length),
      (∀ l (hl : l < j), (patrones.get ⟨l, lt_trans hl hj⟩) texto = none) →
      ∀ v, (patrones.get ⟨j, hj⟩) texto = some v →
      buscarConPatrones patrones texto = some (recortaCadena v) := by
  intro patrones
  induction patrones with
  | nil =>
    intro texto j hj
    simp at hj
  | cons p ps ih =>
    intro texto j hj hprev v hv
    cases j with
    | zero =>
      simp only [List.get] at hv
      simp [buscarConPatrones, hv]
    | succ j' =>
      have h0 : p texto = none := hprev 0 (Nat.succ_pos j')
      have hj' : j' < ps.length := by simpa using hj
      have hrest := ih texto j' hj'
        (fun l hl => hprev (l + 1) (Nat.succ_lt_succ hl)) v (by simpa using hv)
      simp [buscarConPatrones, h0, hrest]

lemma buscar_ninguno (t : String) :
    ∀ (patrones : List (String → Option String)),
      (∀ p ∈ patrones, p t = none) → buscarConPatrones patrones t = none := by
  intro patrones
  induction patrones with
  | nil => intro _; rfl
  | cons p ps ihp =>
    intro h0
    have hp := h0 p (List.mem_cons_self _ _)
    have hps := ihp (fun q hq => h0 q (List.mem_cons_of_mem _ hq))
    simp [buscarConPatrones, hp, hps]

lemma bucle_en_pagina :
    ∀ (textos : List String) (patrones : List (String → Option String))
      (i : Nat) (hi : i < textos.length),
      (∀ k (hk : k < i), textos.get ⟨k, lt_trans hk hi⟩ = ""
          ∨ ∀ p ∈ patrones, p (textos.get ⟨k, lt_trans hk hi⟩) = none) →
      textos.get ⟨i, hi⟩ ≠ "" →
      ∀ v, buscarConPatrones patrones (textos.get ⟨i, hi⟩) = some v →
      buclePaginas patrones textos = some v := by
  intro textos
  induction textos with
  | nil =>
    intro patrones i hi
    simp at hi
  | cons t ts ih =>
    intro patrones i hi hprev hne v hv
    cases i with
    | zero =>
      simp only [List.get] at hne hv
      simp [buclePaginas, hne, hv]
    | succ i' =>
      have hi' : i' < ts.length := by simpa using hi
      have hrest := ih patrones i' hi'
        (fun k hk => by simpa using hprev (k + 1) (Nat.succ_lt_succ hk))
        (by simpa using hne) v (by simpa using hv)
      rcases hprev 0 (Nat.succ_pos i') with h0 | h0
      · simp only [List.get] at h0
        simp [buclePaginas, h0, hrest]
      · simp only [List.get] at h0
        by_cases ht : t = ""
        · simp [buclePaginas, ht, hrest]
        · have hnone : buscarConPatrones patrones t = none := buscar_ninguno t patrones h0
          simp [buclePaginas, ht, hnone, hrest]

/-- C5: if the pattern dictionary has the field, no earlier page matches any
    of the field's patterns (or is empty), page `i` is non-empty, no
    higher-priority pattern matches page `i`, and pattern `j` captures `v`
    there, then the field resolves to the stripped `v` — priority order
    decides within the page, page order across pages, and the search stops
    at the first match. -/
theorem c5_cascada_prioridad
    (biblioteca : String → Option (List (String → Option String)))
    (campo : String) (patrones : List (String → Option String))
    (textos : List String) (hb : biblioteca campo = some patrones)
    (i : Fin textos.length)
    (hprev : ∀ k : Fin textos.length, k.val < i.val →
        textos.get k = "" ∨ ∀ p ∈ patrones, p (textos.get k) = none)
    (hne : textos.get i ≠ "")
    (j : Fin patrones.length)
    (hjprev : ∀ l : Fin patrones.length, l.val < j.val →
        (patrones.get l) (textos.get i) = none)
    (v : String) (hmatch : (patrones.get j) (textos.get i) = some v) :
    extraerEnTodasPaginas biblioteca campo textos = some (recortaCadena v) := by
  have hbusca := buscar_en_indice patrones (textos.get i) j.val j.isLt
    (fun l hl => hjprev ⟨l, lt_trans hl j.isLt⟩ hl) v
    (by simpa using hmatch)
  have hbucle := bucle_en_pagina textos patrones i.val i.isLt
    (fun k hk => by simpa using hprev ⟨k, lt_trans hk i.isLt⟩ hk)
    (by simpa using hne) (recortaCadena v) (by simpa using hbusca)
  simp [extraerEnTodasPaginas, hb, hbucle]

/-- C5 witness: two pages, the first empty; on the second page a
    lower-priority matcher would also capture a different value, but the
    earliest-priority matcher that matches determines the stripped result. -/
theorem c5_cascada_prioridad_witness :
    (bibliotecaEjemplo "CAMPO" = some patronesEjemplo
      ∧ (["", "pagina dos"].get ⟨1, by decide⟩ : String) ≠ ""
      ∧ (patronesEjemplo.get ⟨1, by decide⟩) (["", "pagina dos"].get ⟨1, by decide⟩)
          = some " 5 ")
    ∧ extraerEnTodasPaginas bibliotecaEjemplo "CAMPO" ["", "pagina dos"]
        = some (recortaCadena " 5 ") := by
  refine ⟨⟨rfl, by decide, rfl⟩, ?_⟩
  exact c5_cascada_prioridad bibliotecaEjemplo "CAMPO" patronesEjemplo
    ["", "pagina dos"] rfl
    ⟨1, by decide⟩
    (fun k hk => by
      have hk1 : k.val < 1 := hk
      have hk0 : k.val = 0 := by omega
      rcases k with ⟨kv, hkv⟩
      simp only at hk0
      subst hk0
      exact Or.inl rfl)
    (by decide)
    ⟨1, by decide⟩
    (fun l hl => by
      have hl1 : l.val < 1 := hl
      have hl0 : l.val = 0 := by omega
      rcases l with ⟨lv, hlv⟩
      simp only at hl0
      subst hl0
      rfl)
    " 5 " rfl

lemma combina_getElem (pypdf : List String) :
    ∀ (l : List String) (off i : Nat) (hi : i < l.length),
      (combinaAlternativo pypdf off l)[i]?
        = some (pasoAlternativo pypdf (off + i) (l.get ⟨i, hi⟩)) := by
  intro l
  induction l with
  | nil =>
    intro off i hi
    simp at hi
  | cons t ts ih =>
    intro off i hi
    cases i with
    | zero => simp [combinaAlternativo]
    | succ i' =>
      have hi' : i' < ts.length := by simpa using hi
      have hoff : off + 1 + i' = off + (i' + 1) := by omega
      simp only [combinaAlternativo, List.getElem?_cons_succ]
      rw [ih (off + 1) i' hi', hoff]
      rfl

lemma tablas_getElem (tabla : Nat → String) :
    ∀ (l : List String) (off i : Nat) (hi : i < l.length),
      (aplicaTablas tabla off l)[i]?
        = some (pasoTabla tabla (off + i) (l.get ⟨i, hi⟩)) := by
  intro l
  induction l with
  | nil =>
    intro off i hi
    simp at hi
  | cons t ts ih =>
    intro off i hi
    cases i with
    | zero => simp [aplicaTablas]
    | succ i' =>
      have hi' : i' < ts.length := by simpa using hi
      have hoff : off + 1 + i' = off + (i' + 1) := by omega
      simp only [aplicaTablas, List.getElem?_cons_succ]
      rw [ih (off + 1) i' hi', hoff]
      rfl

lemma combina_length (pypdf : List String) :
    ∀ (l : List String) (off : Nat), (combinaAlternativo pypdf off l).length = l.length := by
  intro l
  induction l with
  | nil => intro off; rfl
  | cons t ts ih => intro off; simp [combinaAlternativo, ih]

lemma tablas_length (tabla : Nat → String) :
    ∀ (l : List String) (off : Nat), (aplicaTablas tabla off l).length = l.length := by
  intro l
  induction l with
  | nil => intro off; rfl
  | cons t ts ih => intro off; simp [aplicaTablas, ih]

/-- C7 counterexample: one page whose native text is empty, whose
    second-engine text is "abc" (below the 50-character threshold) and which
    has no table text.  No method reaches the threshold, yet the page's
    resulting text is "abc", not empty — a short nonempty fallback is kept. -/
theorem c7_contraejemplo :
    extraerTodasPaginas [""] ["abc"] (fun _ => "") = ["abc"]
    ∧ textoCorto "" = true
    ∧ textoCorto "abc" = true
    ∧ ("abc" : String) ≠ "" := ⟨rfl, rfl, rfl, by decide⟩

/-- C7 amended: methods are tried per page in fixed priority order and
    escalation is triggered by the 50-character threshold on the stripped
    text, but a fallback's output is adopted whenever it is nonempty, even
    below the threshold; the page count is preserved, and each resulting
    page is exactly the escalation chain applied to its own inputs. -/
theorem c7_escalada_por_pagina (plumber pypdf : List String) (tabla : Nat → String)
    (i : Nat) (hi : i < plumber.length) :
    (extraerTodasPaginas plumber pypdf tabla).length = plumber.length
    ∧ (extraerTodasPaginas plumber pypdf tabla)[i]?
        = some (pasoTabla tabla i (pasoAlternativo pypdf i (plumber.get ⟨i, hi⟩))) := by
  constructor
  · by_cases hany : plumber.any textoCorto
    · simp [extraerTodasPaginas, hany, tablas_length, combina_length]
    · simp [extraerTodasPaginas, hany, tablas_length]
  · by_cases hany : plumber.any textoCorto
    · have hlen : i < (combinaAlternativo pypdf 0 plumber).length := by
        rw [combina_length]
        exact hi
      simp only [extraerTodasPaginas, hany, if_pos]
      rw [tablas_getElem tabla _ 0 i hlen]
      have hget : (combinaAlternativo pypdf 0 plumber).get ⟨i, hlen⟩
          = pasoAlternativo pypdf i (plumber.get ⟨i, hi⟩) := by
        have h1 := combina_getElem pypdf plumber 0 i hi
        have h2 : (combinaAlternativo pypdf 0 plumber)[i]?
            = some ((combinaAlternativo pypdf 0 plumber).get ⟨i, hlen⟩) := by
          simp [List.getElem?_eq_getElem, List.get_eq_getElem]
        rw [h2] at h1
        simpa using h1
      rw [hget]
      simp
    · have hfalse : ∀ x ∈ plumber, textoCorto x = false := by
        simpa [List.any_eq_true] using hany
      have hx : textoCorto plumber[i] = false :=
        hfalse plumber[i] (List.getElem_mem hi)
      simp only [extraerTodasPaginas, hany, if_neg, Bool.false_eq_true,
        not_false_eq_true, reduceIte]
      rw [tablas_getElem tabla plumber 0 i hi]
      simp [pasoAlternativo, pasoTabla, hx]

/-- C7 amended witness: the characterization applied to the one-page
    counterexample document. -/
theorem c7_escalada_por_pagina_witness :
    (0 < ([""] : List String).length)
    ∧ ((extraerTodasPaginas [""] ["abc"] (fun _ => "")).length = ([""] : List String).length
      ∧ (extraerTodasPaginas [""] ["abc"] (fun _ => ""))[0]?
          = some (pasoTabla (fun _ => "") 0
              (pasoAlternativo ["abc"] 0 (([""] : List String).get ⟨0, by decide⟩)))) :=
  ⟨by decide, c7_escalada_por_pagina [""] ["abc"] (fun _ => "") 0 (by decide)⟩

/-- C6 counterexample: on the line `E3-R2 180.4 0.512 11.34` both defining
    values are resolvable by range (0.512 as weight, 11.34 as percentage, as
    the spec's range-based reading assigns), yet the code reads tokens by
    fixed position, takes 180.4 as the weight, fails its range check and
    discards the record. -/
theorem c6_contraejemplo :
    extraerMotLinea "E3-R2 180.4 0.512 11.34" = none
    ∧ extraerMotLineaSegunEspec "E3-R2 180.4 0.512 11.34"
        = some ⟨"E3", "E3-R2", 2, mkRat 512 1000, mkRat 1134 100⟩ := by
  constructor
  · decide
  · decide

/-- C6 amended: tokens are assigned positionally — the first decimal token
    is the sample weight and the second the percentage — then each is
    validated against its range ([0.01, 15.0] and [0.5, 100]) and the record
    is discarded entirely if either check fails; the two concrete examples
    behave as the claim states. -/
theorem c6_posicional :
    extraerMotLinea "E3-R2 0.512 11.34"
      = some ⟨"E3", "E3-R2", 2, mkRat 512 1000, mkRat 1134 100⟩
    ∧ extraerMotLinea "E3-R2 16.2 180.4" = none
    ∧ ∀ (linea : String) (m : MedicionMot),
        extraerMotLinea linea = some m →
        2 ≤ (extraerDecimales linea.data).length
        ∧ m.peso_muestra_g = redondeaA 3 ((extraerDecimales linea.data).getD 0 0)
        ∧ m.mot_porcentaje = redondeaA 2 ((extraerDecimales linea.data).getD 1 0)
        ∧ mkRat 1 100 ≤ (extraerDecimales linea.data).getD 0 0
        ∧ (extraerDecimales linea.data).getD 0 0 ≤ 15
        ∧ mkRat 1 2 ≤ (extraerDecimales linea.data).getD 1 0
        ∧ (extraerDecimales linea.data).getD 1 0 ≤ 100 := by
  refine ⟨by decide, by decide, ?_⟩
  intro linea m h
  unfold extraerMotLinea at h
  rcases hb : buscaEstRep linea.data with _ | ⟨ds, rs⟩
  · rw [hb] at h
    exact absurd h (by simp)
  · rw [hb] at h
    simp only at h
    by_cases hlen : (extraerDecimales linea.data).length < 2
    · rw [if_pos hlen] at h
      exact absurd h (by simp)
    · rw [if_neg hlen] at h
      by_cases hpeso : ¬(mkRat 1 100 ≤ (extraerDecimales linea.data).getD 0 0
          ∧ (extraerDecimales linea.data).getD 0 0 ≤ 15)
      · rw [if_pos hpeso] at h
        exact absurd h (by simp)
      · rw [if_neg hpeso] at h
        by_cases hmot : ¬(mkRat 1 2 ≤ (extraerDecimales linea.data).getD 1 0
            ∧ (extraerDecimales linea.data).getD 1 0 ≤ 100)
        · rw [if_pos hmot] at h
          exact absurd h (by simp)
        · rw [if_neg hmot] at h
          push_neg at hpeso hmot hlen
          have hm := Option.some_injective _ h.symm
          subst hm
          exact ⟨hlen, rfl, rfl, hpeso.1, hpeso.2, hmot.1, hmot.2⟩

/-- C6 amended witness: the positional characterization read off at the
    accepted concrete line. -/
theorem c6_posicional_witness :
    extraerMotLinea "E3-R2 0.512 11.34"
      = some ⟨"E3", "E3-R2", 2, mkRat 512 1000, mkRat 1134 100⟩
    ∧ (2 ≤ (extraerDecimales ("E3-R2 0.512 11.34" : String).data).length
      ∧ (⟨"E3", "E3-R2", 2, mkRat 512 1000, mkRat 1134 100⟩ : MedicionMot).peso_muestra_g
          = redondeaA 3 ((extraerDecimales ("E3-R2 0.512 11.34" : String).data).getD 0 0)
      ∧ (⟨"E3", "E3-R2", 2, mkRat 512 1000, mkRat 1134 100⟩ : MedicionMot).mot_porcentaje
          = redondeaA 2 ((extraerDecimales ("E3-R2 0.512 11.34" : String).data).getD 1 0)
      ∧ mkRat 1 100 ≤ (extraerDecimales ("E3-R2 0.512 11.34" : String).data).getD 0 0
      ∧ (extraerDecimales ("E3-R2 0.512 11.34" : String).data).getD 0 0 ≤ 15
      ∧ mkRat 1 2 ≤ (extraerDecimales ("E3-R2 0.512 11.34" : String).data).getD 1 0
      ∧ (extraerDecimales ("E3-R2 0.512 11.34" : String).data).getD 1 0 ≤ 100) :=
  ⟨c6_posicional.1,
    c6_posicional.2.2 "E3-R2 0.512 11.34"
      ⟨"E3", "E3-R2", 2, mkRat 512 1000, mkRat 1134 100⟩ c6_posicional.1⟩

/-- C9: when the OCR capability is absent and page 1's text is below the
    minimum length, metadata extraction behaves exactly as if OCR had run
    and found nothing — it does not abort, falls through to the text
    cascade, and returns the fully-assembled record (fields null where no
    pattern matched). -/
theorem c9_sin_ocr (nombreArchivo : String) (otNombre : Option String)
    (textos : List String) (pagina1 : String)
    (patronesOT : List (String → Option String))
    (biblioteca : String → Option (List (String → Option String)))
    (patronesCategoria : List (String → Option Nat))
    (patronesTipo patronesFechaIngreso patronesFechaMuestreo patronesNombre
      patronesCondicion : List (String → Option String))
    (condicionTablas : Option String)
    (h0 : textos[0]? = some pagina1)
    (hcorta : pagina1 = "" ∨ (recorta pagina1.data).length < 50) :
    extraerTodos nombreArchivo otNombre textos none patronesOT biblioteca
        patronesCategoria patronesTipo patronesFechaIngreso patronesFechaMuestreo
        patronesNombre patronesCondicion condicionTablas
      = extraerTodos nombreArchivo otNombre textos (some (fun _ => vacioOcr))
          patronesOT biblioteca patronesCategoria patronesTipo patronesFechaIngreso
          patronesFechaMuestreo patronesNombre patronesCondicion condicionTablas
    ∧ extraerTodos nombreArchivo otNombre textos none patronesOT biblioteca
        patronesCategoria patronesTipo patronesFechaIngreso patronesFechaMuestreo
        patronesNombre patronesCondicion condicionTablas
      = { nombre_archivo := nombreArchivo
          codigo_ot :=
            (match otNombre with
             | some v => some v
             | none => buscarConPatrones patronesOT (String.intercalate "\n" textos))
          codigo_centro := extraerEnTodasPaginas biblioteca "codigo_centro" textos
          categoria := bucleCategoria patronesCategoria textos
          tipo_monitoreo := bucleTipo patronesTipo textos
          fecha_ingreso := bucleFecha patronesFechaIngreso textos
          fecha_muestreo := bucleFecha patronesFechaMuestreo textos
          condicion_centro := extraerCondicionCentro patronesCondicion
            (String.intercalate "\n" textos) condicionTablas
          nombre_centro := bucleNombre patronesNombre textos
          responsable := none
          region := none } := by
  have hc : (pagina1 = "" || decide ((recorta pagina1.data).length < 50)) = true := by
    rcases hcorta with h | h
    · simp [h]
    · simp [h]
  cases otNombre with
  | none =>
    constructor
    · simp [extraerTodos, h0, hc, extraerConOcr, esVacioOcr, vacioOcr,
        inicializarMetadatos]
    · simp [extraerTodos, h0, hc, extraerConOcr, esVacioOcr, vacioOcr,
        inicializarMetadatos]
  | some ot =>
    constructor
    · simp [extraerTodos, h0, hc, extraerConOcr, esVacioOcr, vacioOcr,
        inicializarMetadatos]
    · simp [extraerTodos, h0, hc, extraerConOcr, esVacioOcr, vacioOcr,
        inicializarMetadatos]

/-- C9 witness: one short page, no OCR capability, empty pattern sets. -/
theorem c9_sin_ocr_witness :
    ((([""] : List String)[0]? = some "") ∧ (("" : String) = "" ∨ (recorta ("" : String).data).length < 50))
    ∧ (extraerTodos "r.pdf" (some "123") [""] none [] (fun _ => none) [] [] [] [] [] [] none
        = extraerTodos "r.pdf" (some "123") [""] (some (fun _ => vacioOcr)) []
            (fun _ => none) [] [] [] [] [] [] none
      ∧ extraerTodos "r.pdf" (some "123") [""] none [] (fun _ => none) [] [] [] [] [] [] none
        = { nombre_archivo := "r.pdf"
            codigo_ot :=
              (match (some "123" : Option String) with
               | some v => some v
               | none => buscarConPatrones [] (String.intercalate "\n" [""]))
            codigo_centro := extraerEnTodasPaginas (fun _ => none) "codigo_centro" [""]
            categoria := bucleCategoria [] [""]
            tipo_monitoreo := bucleTipo [] [""]
            fecha_ingreso := bucleFecha [] [""]
            fecha_muestreo := bucleFecha [] [""]
            condicion_centro := extraerCondicionCentro []
              (String.intercalate "\n" [""]) none
            nombre_centro := bucleNombre [] [""]
            responsable := none
            region := none }) :=
  ⟨⟨rfl, Or.inl rfl⟩,
    c9_sin_ocr "r.pdf" (some "123") [""] "" [] (fun _ => none) [] [] [] [] [] [] none
      rfl (Or.inl rfl)⟩
